import Mathlib

/-
Shallow embedding of the seller-lifecycle core of the e-commerce backend:
the Seller document (src/models/Seller.js), the OTP generator/validator
(otpService), the verify-email / send-otp / signup / withdrawal route
handlers (src/routes/seller.js), the admin approve / reject / status-change
handlers (src/routes/adminSeller.js), the approval gate middleware
(src/middleware/sellerAuth.js) and the notification sender with its retry
helper (emailService).  Timestamps are epoch milliseconds as Int; money
amounts are Int; JavaScript "absent or null" values are Option; randomness
(the generated OTP digits) and the external mail provider are passed in as
explicit inputs.
-/

structure BankDetails where
  bankName : String
  accountHolder : String
  accountNumber : String
  ifscCode : String
deriving Repr, DecidableEq

structure Withdrawal where
  amount : Int
  requestDate : Int
  status : String
  bankDetails : BankDetails
  completedDate : Option Int
  notes : Option String
deriving Repr, DecidableEq

structure OTPData where
  code : Option String
  expiresAt : Option Int
  attempts : Nat
deriving Repr, DecidableEq

structure Seller where
  name : String
  email : String
  phone : String
  password : String
  aadhaarNumber : String
  aadhaarDocument : String
  bankDetails : BankDetails
  status : String
  isApproved : Bool
  rejectionReason : Option String
  approvedAt : Option Int
  totalEarnings : Int
  totalOrders : Int
  totalProducts : Int
  rating : Int
  reviewCount : Int
  withdrawals : List Withdrawal
  emailVerificationOTP : Option OTPData
  isEmailVerified : Bool
  createdAt : Int
  updatedAt : Int
deriving Repr, DecidableEq

/-- OTP validation outcome of validateOTP (otpService). -/
inductive OTPResult where
  | noOtp
  | expired
  | mismatch
  | valid
deriving Repr, DecidableEq

/-- generateOTPWithExpiry from otpService: the random 6-digit code is an
explicit input; expiresAt is now plus expiryMinutes minutes; a freshly
stored OTP record has attempts 0. -/
def generateOTPWithExpiry (code : String) (now : Int) (expiryMinutes : Int) : OTPData :=
  { code := some code, expiresAt := some (now + expiryMinutes * 60 * 1000), attempts := 0 }

/-- validateOTP from otpService: no stored record or no code gives noOtp;
a check time strictly past expiresAt gives expired (the source compares
with a strict greater-than); a different code gives mismatch; otherwise
valid.  A null expiresAt behaves as epoch 0, as new Date of null does. -/
def validateOTP (storedOTP : Option OTPData) (providedOTP : String) (now : Int) : OTPResult :=
  match storedOTP with
  | none => .noOtp
  | some o =>
    match o.code with
    | none => .noOtp
    | some c =>
      if now > o.expiresAt.getD 0 then .expired
      else if c ≠ providedOTP then .mismatch
      else .valid

/-- Response of the POST verify-email handler. -/
inductive VerifyResult where
  | alreadyVerified
  | rateLimited
  | invalidOtp (attempts : Nat)
  | internalError
  | success
deriving Repr, DecidableEq

/-- POST verify-email handler (seller.js), for a found seller and a
provided otp: already-verified short-circuits; otherwise validateOTP runs
first; on failure the attempts counter is incremented and, once it has
reached 5, the handler answers 429; on success the email is marked
verified and the OTP record is cleared.  Saves set updatedAt (pre-save
hook of the Seller model). -/
def verifyEmail (s : Seller) (otp : String) (now : Int) : Seller × VerifyResult :=
  if s.isEmailVerified then (s, .alreadyVerified)
  else
    match validateOTP s.emailVerificationOTP otp now with
    | .valid =>
      ({ s with isEmailVerified := true,
                emailVerificationOTP := some { code := none, expiresAt := none, attempts := 0 },
                updatedAt := now }, .success)
    | _ =>
      match s.emailVerificationOTP with
      | none => (s, .internalError)
      | some o =>
        let a := o.attempts + 1
        let s2 := { s with emailVerificationOTP := some { o with attempts := a }, updatedAt := now }
        if 5 ≤ a then (s2, .rateLimited) else (s2, .invalidOtp a)

/-- Response of the POST send-otp handler. -/
inductive SendOtpResp where
  | notFound
  | alreadyVerified
  | sent
deriving Repr, DecidableEq

/-- POST send-otp handler (seller.js): regenerates the OTP record for an
unverified seller, replacing any previous one (attempts back to 0). -/
def sendOtpHandler (db : Option Seller) (otpCode : String) (now : Int) :
    Option Seller × SendOtpResp :=
  match db with
  | none => (none, .notFound)
  | some s =>
    if s.isEmailVerified then (some s, .alreadyVerified)
    else (some { s with emailVerificationOTP := some (generateOTPWithExpiry otpCode now 10),
                        updatedAt := now }, .sent)

/-- Sum of the amounts of the recorded withdrawal requests, as the
withdrawals reduce in the withdrawal routes computes it. -/
def totalWithdrawn (s : Seller) : Int :=
  (s.withdrawals.map (fun w => w.amount)).sum

/-- Available balance as the POST withdrawals handler computes it:
totalEarnings minus the sum of all recorded withdrawal amounts; never
stored, always recomputed. -/
def availableBalance (s : Seller) : Int :=
  s.totalEarnings - totalWithdrawn s

/-- Response of the POST withdrawals handler. -/
inductive WithdrawResult where
  | validationError
  | insufficientBalance (availableBalance : Int)
  | created (w : Withdrawal) (remainingBalance : Int)
deriving Repr, DecidableEq

/-- The pending withdrawal object the POST withdrawals handler builds:
requested amount, request date, pending status and a field-by-field
snapshot of the seller's current bank details. -/
def pendingWithdrawal (s : Seller) (a : Int) (now : Int) : Withdrawal :=
  { amount := a, requestDate := now, status := "pending",
    bankDetails := { bankName := s.bankDetails.bankName,
                     accountHolder := s.bankDetails.accountHolder,
                     accountNumber := s.bankDetails.accountNumber,
                     ifscCode := s.bankDetails.ifscCode },
    completedDate := none, notes := none }

/-- POST withdrawals handler (seller.js): a missing, zero or negative
amount is rejected up front (HTTP 400) before the balance is computed; an
amount above the available balance answers insufficient-balance (HTTP 400)
without touching the document; otherwise the pending withdrawal is
appended and the remaining balance reported. -/
def requestWithdrawal (s : Seller) (amount : Option Int) (now : Int) :
    Seller × WithdrawResult :=
  match amount with
  | none => (s, .validationError)
  | some a =>
    if a ≤ 0 then (s, .validationError)
    else
      let avail := availableBalance s
      if a > avail then (s, .insufficientBalance avail)
      else
        ({ s with withdrawals := s.withdrawals ++ [pendingWithdrawal s a now],
                  updatedAt := now },
         .created (pendingWithdrawal s a now) (avail - a))

/-- Admin approve transition (adminSeller.js): approved status, approval
flag and timestamp set, rejection reason cleared; save stamps updatedAt. -/
def approveSeller (s : Seller) (now : Int) : Seller :=
  { s with status := "approved", isApproved := true, approvedAt := some now,
           rejectionReason := none, updatedAt := now }

/-- Admin reject transition (adminSeller.js): rejected status, approval
flag cleared, reason stored; save stamps updatedAt; nothing else touched. -/
def rejectSellerApply (s : Seller) (reason : String) (now : Int) : Seller :=
  { s with status := "rejected", isApproved := false,
           rejectionReason := some reason, updatedAt := now }

/-- The status map of the PUT status handler: active maps to the stored
status approved, inactive and suspended map to themselves. -/
def statusMap (ns : String) : String :=
  if ns = "active" then "approved" else ns

/-- Admin status-change transition (adminSeller.js): stored status from
the status map, isApproved true exactly for active; save stamps
updatedAt. -/
def changeSellerStatus (s : Seller) (ns : String) (now : Int) : Seller :=
  { s with status := statusMap ns, isApproved := ns == "active", updatedAt := now }

/-- The invariant claimed for sellers: the approval flag is set exactly
when the stored status is approved. -/
def iaInv (s : Seller) : Prop :=
  s.isApproved = true ↔ s.status = "approved"

/-- A JavaScript error value as the notification code inspects it:
message and code strings. -/
structure JsError where
  message : String
  code : String
deriving Repr, DecidableEq

/-- Character-list prefix test, the base of the substring test below. -/
def charsPrefixOf : List Char → List Char → Bool
  | [], _ => true
  | _ :: _, [] => false
  | a :: as, b :: bs => a == b && charsPrefixOf as bs

/-- Character-list substring test: the pattern occurs at some position. -/
def charsContain (pat : List Char) : List Char → Bool
  | [] => charsPrefixOf pat []
  | b :: bs => charsPrefixOf pat (b :: bs) || charsContain pat bs

/-- Substring test mirroring the String.includes calls of isNetworkError. -/
def strContains (s pat : String) : Bool :=
  charsContain pat.toList s.toList

/-- isNetworkError from emailService: a transient (retryable) failure is
one whose message contains one of the listed network error markers or
whose code is one of the listed codes; a missing error is not transient. -/
def isNetworkError (e : Option JsError) : Bool :=
  match e with
  | none => false
  | some err =>
    strContains err.message "ETIMEDOUT" ||
    strContains err.message "ECONNREFUSED" ||
    strContains err.message "ENOTFOUND" ||
    strContains err.message "socket hang up" ||
    err.code == "ETIMEDOUT" ||
    err.code == "ECONNREFUSED" ||
    err.code == "ENOTFOUND"

/-- The backoff delay before retrying after a failed attempt:
delayMs times two to the power attempt minus one. -/
def backoffDelay (delayMs : Int) (attempt : Nat) : Int :=
  delayMs * 2 ^ (attempt - 1)

/-- The loop body of retryWithBackoff (emailService).  The provider is a
function from the attempt number to that attempt's outcome; the sleep
between attempts only delays execution and carries no state, so it is not
part of the returned value.  Returns the overall outcome (none only if the
fuel runs out, which the entry point below makes impossible for a positive
maxRetries) together with the list of provider call outcomes, in order. -/
def retryGo (fn : Nat → Except JsError Unit) (maxRetries : Nat) (attempt : Nat)
    (remaining : Nat) : Option (Except JsError Unit) × List (Except JsError Unit) :=
  match remaining with
  | 0 => (none, [])
  | r + 1 =>
    match fn attempt with
    | .ok u => (some (.ok u), [.ok u])
    | .error e =>
      if attempt == maxRetries || !isNetworkError (some e) then
        (some (.error e), [.error e])
      else
        let rest := retryGo fn maxRetries (attempt + 1) r
        (rest.1, .error e :: rest.2)

/-- retryWithBackoff from emailService: up to maxRetries total attempts,
starting at attempt 1; only transient errors are retried; the final
attempt's error is surfaced. -/
def retryWithBackoff (fn : Nat → Except JsError Unit) (maxRetries : Nat) :
    Option (Except JsError Unit) × List (Except JsError Unit) :=
  retryGo fn maxRetries 1 maxRetries

/-- Number of successful provider deliveries among the recorded
outcomes. -/
def okCount (l : List (Except JsError Unit)) : Nat :=
  (l.filter (fun r => match r with | .ok _ => true | .error _ => false)).length

/-- sendEmailViaGmailAPI from emailService: fails up front when the sender
address environment variable is missing, otherwise submits the encoded
message through retryWithBackoff with 3 total attempts (base delay
2000ms).  MIME construction and base64url encoding do not affect the
delivery outcome and are not modelled. -/
def sendEmailViaGmailAPI (adminEmailSet : Bool) (provider : Nat → Except JsError Unit) :
    Option (Except JsError Unit) × List (Except JsError Unit) :=
  if !adminEmailSet then
    (some (.error { message := "Missing ADMIN_EMAIL environment variable", code := "" }), [])
  else retryWithBackoff provider 3

/-- sendApprovalEmail from emailService delegates its delivery to
sendEmailViaGmailAPI. -/
def sendApprovalEmail (adminEmailSet : Bool) (provider : Nat → Except JsError Unit) :
    Option (Except JsError Unit) × List (Except JsError Unit) :=
  sendEmailViaGmailAPI adminEmailSet provider

/-- sendRejectionEmail from emailService delegates its delivery to
sendEmailViaGmailAPI. -/
def sendRejectionEmail (adminEmailSet : Bool) (provider : Nat → Except JsError Unit) :
    Option (Except JsError Unit) × List (Except JsError Unit) :=
  sendEmailViaGmailAPI adminEmailSet provider

/-- sendOTPEmail from emailService: after the environment check it calls
the provider exactly once, with no retry wrapper around the call. -/
def sendOTPEmail (adminEmailSet : Bool) (provider : Nat → Except JsError Unit) :
    Except JsError Unit × List (Except JsError Unit) :=
  if !adminEmailSet then
    (.error { message := "Missing ADMIN_EMAIL environment variable", code := "" }, [])
  else (provider 1, [provider 1])

/-- Response of the admin seller routes. -/
inductive AdminResp where
  | badRequest
  | notFound
  | success
deriving Repr, DecidableEq

/-- POST approve handler (adminSeller.js): the transition is saved first;
the approval email is then attempted inside a try/catch whose failure is
only logged, so the persisted state and the response are the same for
either email outcome. -/
def approveHandler (db : Option Seller) (emailResult : Except JsError Unit) (now : Int) :
    Option Seller × AdminResp :=
  match db with
  | none => (none, .notFound)
  | some s =>
    let s2 := approveSeller s now
    match emailResult with
    | .ok _ => (some s2, .success)
    | .error _ => (some s2, .success)

/-- POST reject handler (adminSeller.js): an empty reason is rejected
before anything is read; otherwise the transition is saved first and the
rejection email failure is caught and only logged. -/
def rejectHandler (db : Option Seller) (reason : String) (emailResult : Except JsError Unit)
    (now : Int) : Option Seller × AdminResp :=
  if reason = "" then (db, .badRequest)
  else
    match db with
    | none => (none, .notFound)
    | some s =>
      let s2 := rejectSellerApply s reason now
      match emailResult with
      | .ok _ => (some s2, .success)
      | .error _ => (some s2, .success)

/-- PUT status handler (adminSeller.js): only active, inactive and
suspended are accepted; the transition goes through changeSellerStatus. -/
def statusHandler (db : Option Seller) (ns : String) (now : Int) :
    Option Seller × AdminResp :=
  if !(ns == "active" || ns == "inactive" || ns == "suspended") then (db, .badRequest)
  else
    match db with
    | none => (none, .notFound)
    | some s => (some (changeSellerStatus s ns now), .success)

/-- Outcome of the requireApprovedSeller middleware. -/
inductive AuthOutcome where
  | noToken
  | invalidToken
  | sellerNotFound
  | notApproved (status : String)
  | authorized (s : Seller)
deriving Repr

/-- requireApprovedSeller middleware (sellerAuth.js): missing bearer token
answers 401; a token the verifier rejects answers 401; a token whose
seller id resolves to no document answers 404; a found seller that is not
flagged approved or whose status is not approved answers 403 carrying the
seller's current status; only otherwise does the request proceed with the
seller attached.  Token signature checking and the database lookup are the
explicit inputs verifyTok and findById. -/
def requireApprovedSeller (tok : Option String) (verifyTok : String → Option Nat)
    (findById : Nat → Option Seller) : AuthOutcome :=
  match tok with
  | none => .noToken
  | some t =>
    match verifyTok t with
    | none => .invalidToken
    | some sid =>
      match findById sid with
      | none => .sellerNotFound
      | some s =>
        if !s.isApproved || s.status != "approved" then .notApproved s.status
        else .authorized s

/-- The signup request body fields the POST signup handler destructures. -/
structure SignupFields where
  name : String
  email : String
  phone : String
  password : String
  aadhaarNumber : String
  aadhaarDocument : String
  bankName : String
  accountHolder : String
  accountNumber : String
  ifscCode : String
deriving Repr, DecidableEq

/-- The all-fields-required check of the signup handler (an empty string
is falsy in JavaScript and counts as missing). -/
def signupFieldsMissing (f : SignupFields) : Bool :=
  f.name == "" || f.email == "" || f.phone == "" || f.password == "" ||
  f.aadhaarNumber == "" || f.aadhaarDocument == "" || f.bankName == "" ||
  f.accountHolder == "" || f.accountNumber == "" || f.ifscCode == ""

/-- The fresh seller document the signup handler constructs: pending
status, not approved, email unverified, zeroed counters, empty withdrawal
history.  Password hashing by the pre-save hook is keyless here and kept
as the given string. -/
def newSeller (f : SignupFields) (now : Int) : Seller :=
  { name := f.name, email := f.email, phone := f.phone, password := f.password,
    aadhaarNumber := f.aadhaarNumber, aadhaarDocument := f.aadhaarDocument,
    bankDetails := { bankName := f.bankName, accountHolder := f.accountHolder,
                     accountNumber := f.accountNumber, ifscCode := f.ifscCode },
    status := "pending", isApproved := false, rejectionReason := none, approvedAt := none,
    totalEarnings := 0, totalOrders := 0, totalProducts := 0, rating := 0, reviewCount := 0,
    withdrawals := [], emailVerificationOTP := none, isEmailVerified := false,
    createdAt := now, updatedAt := now }

/-- Response of the POST signup handler; created carries whether a session
token was issued with the 201 response. -/
inductive SignupResp where
  | missingFields
  | dupEmail
  | dupAadhaar
  | created (tokenIssued : Bool)
deriving Repr, DecidableEq

/-- POST signup handler (seller.js): field and duplicate checks, then the
seller is created and saved; the OTP is generated and saved and the OTP
email is sent inside a try/catch, so a send failure leaves the saved
seller (whose OTP record was saved before the send) and still falls
through to the 201 response with a signed 7-day token.  Duplicate lookups
and the OTP digits are explicit inputs. -/
def signupHandler (f : SignupFields) (dupEmail dupAadhaar : Bool) (otpCode : String)
    (otpSend : Except JsError Unit) (now : Int) : Option Seller × SignupResp :=
  if signupFieldsMissing f then (none, .missingFields)
  else if dupEmail then (none, .dupEmail)
  else if dupAadhaar then (none, .dupAadhaar)
  else
    let s1 := { newSeller f now with
                emailVerificationOTP := some (generateOTPWithExpiry otpCode now 10),
                updatedAt := now }
    match otpSend with
    | .ok _ => (some s1, .created true)
    | .error _ => (some s1, .created true)

/-- A concrete seller used by the evaluation theorems below. -/
def sampleSeller : Seller :=
  { name := "Asha", email := "asha@example.com", phone := "9999999999",
    password := "hashed", aadhaarNumber := "123412341234", aadhaarDocument := "doc.png",
    bankDetails := { bankName := "SBI", accountHolder := "Asha",
                     accountNumber := "000111222", ifscCode := "SBIN0000001" },
    status := "pending", isApproved := false, rejectionReason := none, approvedAt := none,
    totalEarnings := 100, totalOrders := 0, totalProducts := 0, rating := 0, reviewCount := 0,
    withdrawals := [], emailVerificationOTP := none, isEmailVerified := false,
    createdAt := 0, updatedAt := 0 }

/-- The sample seller after an OTP was issued at time 0 (10 minute expiry)
and five consecutive wrong codes were submitted at time 1: its OTP record
then carries attempts 5. -/
def lockedSeller : Seller :=
  (List.replicate 5 "000000").foldl (fun st c => (verifyEmail st c 1).1)
    { sampleSeller with emailVerificationOTP := some (generateOTPWithExpiry "123456" 0 10) }

/-- A concrete signup body with every field present. -/
def sampleFields : SignupFields :=
  { name := "Asha", email := "asha@example.com", phone := "9999999999", password := "secret",
    aadhaarNumber := "123412341234", aadhaarDocument := "doc.png", bankName := "SBI",
    accountHolder := "Asha", accountNumber := "000111222", ifscCode := "SBIN0000001" }

/-- A concrete transient provider error. -/
def cErr : JsError := { message := "connect ETIMEDOUT 1.2.3.4", code := "ETIMEDOUT" }

/-- A provider that fails transiently on attempts 1 and 2 and succeeds on
attempt 3. -/
def transientTwiceProvider : Nat → Except JsError Unit := fun n =>
  if n ≤ 2 then .error cErr else .ok ()

/-- Claim C2: after every admin transition -- approve, reject, and status
change to active, inactive or suspended -- the approval flag is set
exactly when the stored status is approved. -/
theorem admin_transitions_keep_isApproved_iff_approved (s : Seller) (reason ns : String)
    (now : Int) (hns : ns = "active" ∨ ns = "inactive" ∨ ns = "suspended") :
    iaInv (approveSeller s now) ∧ iaInv (rejectSellerApply s reason now) ∧
      iaInv (changeSellerStatus s ns now) := by
  refine ⟨?_, ?_, ?_⟩
  · simp [iaInv, approveSeller]
  · simp [iaInv, rejectSellerApply]
  · rcases hns with h | h | h <;> subst h <;> simp [iaInv, changeSellerStatus, statusMap]

theorem admin_transitions_keep_isApproved_iff_approved_witness :
    iaInv (approveSeller sampleSeller 5) ∧ iaInv (rejectSellerApply sampleSeller "bad docs" 5) ∧
      iaInv (changeSellerStatus sampleSeller "active" 5) :=
  admin_transitions_keep_isApproved_iff_approved sampleSeller "bad docs" "active" 5 (Or.inl rfl)

/-- Claim C10: the admin reject transition modifies only status,
isApproved, rejectionReason and updatedAt; every other field -- in
particular approvedAt, totalEarnings, withdrawals, emailVerificationOTP
and isEmailVerified -- is unchanged, so a seller rejected after a prior
approval retains its approvedAt timestamp. -/
theorem reject_frame_effect (s : Seller) (reason : String) (now : Int) :
    (rejectSellerApply s reason now).status = "rejected" ∧
    (rejectSellerApply s reason now).isApproved = false ∧
    (rejectSellerApply s reason now).rejectionReason = some reason ∧
    (rejectSellerApply s reason now).updatedAt = now ∧
    (rejectSellerApply s reason now).name = s.name ∧
    (rejectSellerApply s reason now).email = s.email ∧
    (rejectSellerApply s reason now).phone = s.phone ∧
    (rejectSellerApply s reason now).password = s.password ∧
    (rejectSellerApply s reason now).aadhaarNumber = s.aadhaarNumber ∧
    (rejectSellerApply s reason now).aadhaarDocument = s.aadhaarDocument ∧
    (rejectSellerApply s reason now).bankDetails = s.bankDetails ∧
    (rejectSellerApply s reason now).approvedAt = s.approvedAt ∧
    (rejectSellerApply s reason now).totalEarnings = s.totalEarnings ∧
    (rejectSellerApply s reason now).totalOrders = s.totalOrders ∧
    (rejectSellerApply s reason now).totalProducts = s.totalProducts ∧
    (rejectSellerApply s reason now).rating = s.rating ∧
    (rejectSellerApply s reason now).reviewCount = s.reviewCount ∧
    (rejectSellerApply s reason now).withdrawals = s.withdrawals ∧
    (rejectSellerApply s reason now).emailVerificationOTP = s.emailVerificationOTP ∧
    (rejectSellerApply s reason now).isEmailVerified = s.isEmailVerified ∧
    (rejectSellerApply s reason now).createdAt = s.createdAt := by
  simp [rejectSellerApply]

/-- Claim C6: a notification failure never aborts the business transition
it is attached to: admin approve and reject persist the transition and
answer success for either email outcome, and an OTP-send failure during
signup still leaves the seller created (with its saved OTP record) and
the 201 response carrying a token. -/
theorem notification_failure_does_not_abort (s : Seller) (reason : String) (f : SignupFields)
    (otpCode : String) (e : Except JsError Unit) (now : Int)
    (hr : reason ≠ "") (hf : signupFieldsMissing f = false) :
    approveHandler (some s) e now = (some (approveSeller s now), .success) ∧
    rejectHandler (some s) reason e now = (some (rejectSellerApply s reason now), .success) ∧
    signupHandler f false false otpCode e now =
      (some { newSeller f now with
              emailVerificationOTP := some (generateOTPWithExpiry otpCode now 10),
              updatedAt := now }, .created true) := by
  refine ⟨?_, ?_, ?_⟩ <;>
    cases e <;> simp [approveHandler, rejectHandler, signupHandler, hr, hf]

theorem notification_failure_does_not_abort_witness :
    approveHandler (some sampleSeller) (.error cErr) 9 =
      (some (approveSeller sampleSeller 9), .success) ∧
    rejectHandler (some sampleSeller) "Invalid documents" (.error cErr) 9 =
      (some (rejectSellerApply sampleSeller "Invalid documents" 9), .success) ∧
    signupHandler sampleFields false false "123456" (.error cErr) 9 =
      (some { newSeller sampleFields 9 with
              emailVerificationOTP := some (generateOTPWithExpiry "123456" 9 10),
              updatedAt := 9 }, .created true) :=
  notification_failure_does_not_abort sampleSeller "Invalid documents" sampleFields "123456"
    (.error cErr) 9 (by decide) (by decide)

/-- Claim C9: a withdrawal request whose amount is absent, zero or
negative fails with the validation error (checked before any balance
computation) and leaves the seller document unchanged; consequently every
withdrawal in the stored sequence after any request was either already
there or has a strictly positive amount. -/
theorem withdrawal_amount_validation (s : Seller) (amt : Option Int) (now : Int) :
    ((∀ a : Int, amt = some a → a ≤ 0) → requestWithdrawal s amt now = (s, .validationError)) ∧
    (∀ w : Withdrawal, w ∈ (requestWithdrawal s amt now).1.withdrawals →
      w ∈ s.withdrawals ∨ 0 < w.amount) := by
  rcases amt with _ | a
  · exact ⟨fun _ => rfl, fun w hw => Or.inl hw⟩
  · by_cases ha : a ≤ 0
    · refine ⟨fun _ => ?_, fun w hw => ?_⟩
      · simp [requestWithdrawal, ha]
      · simp [requestWithdrawal, ha] at hw
        exact Or.inl hw
    · refine ⟨fun h => absurd (h a rfl) ha, fun w hw => ?_⟩
      by_cases hb : a > availableBalance s
      · simp [requestWithdrawal, ha, hb] at hw
        exact Or.inl hw
      · simp [requestWithdrawal, ha, hb] at hw
        rcases hw with hw | hw
        · exact Or.inl hw
        · refine Or.inr ?_
          subst hw
          simp [pendingWithdrawal]
          omega

theorem withdrawal_amount_validation_witness :
    requestWithdrawal sampleSeller (some 0) 3 = (sampleSeller, .validationError) :=
  (withdrawal_amount_validation sampleSeller (some 0) 3).1
    (by intro a ha; injection ha with h; omega)

/-- Supporting invariant: the withdrawal handler keeps the available
balance non-negative, so every state reachable through it from a
non-negative state (such as a fresh signup with balance 0) satisfies the
hypothesis of the insufficient-balance theorem below. -/
theorem requestWithdrawal_preserves_nonneg (s : Seller) (amt : Option Int) (now : Int)
    (hinv : 0 ≤ availableBalance s) :
    0 ≤ availableBalance (requestWithdrawal s amt now).1 := by
  rcases amt with _ | a
  · exact hinv
  · by_cases ha : a ≤ 0
    · simpa [requestWithdrawal, ha] using hinv
    · by_cases hb : a > availableBalance s
      · simpa [requestWithdrawal, ha, hb] using hinv
      · have hred : (requestWithdrawal s (some a) now).1 =
            { s with withdrawals := s.withdrawals ++ [pendingWithdrawal s a now],
                     updatedAt := now } := by
          simp [requestWithdrawal, ha, hb]
        rw [hred]
        simp [availableBalance, totalWithdrawn, pendingWithdrawal] at hb ⊢
        omega

/-- Claim C4: the available balance is totalEarnings minus the sum of all
recorded withdrawal amounts, and for every seller state satisfying the
balance invariant (a non-negative available balance, which the handler
preserves) a request for an amount strictly above the available balance
fails with insufficient-balance, reporting that balance, and leaves the
whole seller document -- withdrawals included -- unchanged. -/
theorem withdrawal_insufficient_balance (s : Seller) (a now : Int)
    (hinv : 0 ≤ availableBalance s) (h : availableBalance s < a) :
    requestWithdrawal s (some a) now = (s, .insufficientBalance (availableBalance s)) ∧
    availableBalance s = s.totalEarnings - totalWithdrawn s := by
  have ha : ¬ a ≤ 0 := by omega
  have hb : a > availableBalance s := h
  exact ⟨by simp [requestWithdrawal, ha, hb], rfl⟩

theorem withdrawal_insufficient_balance_witness :
    requestWithdrawal sampleSeller (some 150) 7 =
      (sampleSeller, .insufficientBalance (availableBalance sampleSeller)) ∧
    availableBalance sampleSeller = sampleSeller.totalEarnings - totalWithdrawn sampleSeller :=
  withdrawal_insufficient_balance sampleSeller 150 7 (by decide) (by decide)

/-- Claim C7: an operation behind the approval-gate middleware proceeds
only when the bearer token is present, verifies, and resolves to an
existing seller flagged approved with stored status approved; and when
the token resolves to an existing seller that is not approved, the
middleware answers 403 carrying the seller's current status. -/
theorem approval_gate (tok : Option String) (verifyTok : String → Option Nat)
    (findById : Nat → Option Seller) :
    (∀ s : Seller, requireApprovedSeller tok verifyTok findById = .authorized s →
      ∃ t sid, tok = some t ∧ verifyTok t = some sid ∧ findById sid = some s ∧
        s.isApproved = true ∧ s.status = "approved") ∧
    (∀ (t : String) (sid : Nat) (s : Seller), tok = some t → verifyTok t = some sid →
      findById sid = some s → ¬(s.isApproved = true ∧ s.status = "approved") →
      requireApprovedSeller tok verifyTok findById = .notApproved s.status) := by
  constructor
  · intro s hs
    rcases tok with _ | t
    · simp [requireApprovedSeller] at hs
    · rcases hv : verifyTok t with _ | sid
      · simp [requireApprovedSeller, hv] at hs
      · rcases hf : findById sid with _ | s2
        · simp [requireApprovedSeller, hv, hf] at hs
        · cases hc : (!s2.isApproved || s2.status != "approved") with
          | true => simp [requireApprovedSeller, hv, hf, hc] at hs
          | false =>
            simp [requireApprovedSeller, hv, hf, hc] at hs
            simp at hc
            subst hs
            exact ⟨t, sid, rfl, hv, hf, hc.1, hc.2⟩
  · intro t sid s ht hv hf hc
    subst ht
    cases hb : (!s.isApproved || s.status != "approved") with
    | false =>
      exfalso
      apply hc
      simpa using hb
    | true => simp [requireApprovedSeller, hv, hf, hb]

theorem approval_gate_witness :
    requireApprovedSeller (some "tok")
      (fun t => if t == "tok" then some 1 else none)
      (fun sid => if sid == 1 then some sampleSeller else none) =
      .notApproved sampleSeller.status :=
  (approval_gate (some "tok") (fun t => if t == "tok" then some 1 else none)
      (fun sid => if sid == 1 then some sampleSeller else none)).2
    "tok" 1 sampleSeller rfl rfl rfl (by decide)

/-- Claim C1 counterexample: lockedSeller has suffered five consecutive
failed verification attempts against its issued code (its OTP record
carries attempts 5), yet a further verify-email attempt with the correct,
unexpired code succeeds instead of failing with the 429 rate limit, so
the lockout does not cover every further attempt regardless of code. -/
theorem verify_email_lockout_counterexample :
    lockedSeller.emailVerificationOTP =
        some { code := some "123456", expiresAt := some 600000, attempts := 5 } ∧
    (verifyEmail lockedSeller "123456" 2).2 = .success ∧
    (verifyEmail lockedSeller "123456" 2).2 ≠ .rateLimited := by decide

/-- Claim C1 (amended): once the current code's attempts counter has
reached at least 4 -- as after five consecutive failed attempts from a
fresh code, which leave it at 5 -- every further verify-email attempt
whose provided code fails validation answers the 429 rate limit, and this
lasts until a new OTP is issued, which resets attempts to 0; an attempt
with the correct, unexpired code is however not rate-limited: it
succeeds, because the handler validates before consulting the counter. -/
theorem verify_email_lockout_amended (s : Seller) (o : OTPData) (otp c : String) (now : Int)
    (hv : s.isEmailVerified = false) (ho : s.emailVerificationOTP = some o)
    (ha : 4 ≤ o.attempts) :
    (validateOTP (some o) otp now ≠ .valid → (verifyEmail s otp now).2 = .rateLimited) ∧
    (validateOTP (some o) otp now = .valid → (verifyEmail s otp now).2 = .success) ∧
    sendOtpHandler (some s) c now =
      (some { s with emailVerificationOTP := some (generateOTPWithExpiry c now 10),
                     updatedAt := now }, .sent) := by
  have h5 : 5 ≤ o.attempts + 1 := by omega
  refine ⟨?_, ?_, ?_⟩
  · intro hne
    cases hr : validateOTP (some o) otp now with
    | valid => exact absurd hr hne
    | noOtp => simp [verifyEmail, hv, ho, hr, h5]
    | expired => simp [verifyEmail, hv, ho, hr, h5]
    | mismatch => simp [verifyEmail, hv, ho, hr, h5]
  · intro hval
    simp [verifyEmail, hv, ho, hval]
  · simp [sendOtpHandler, hv]

theorem verify_email_lockout_amended_witness :
    (verifyEmail lockedSeller "999999" 2).2 = .rateLimited :=
  (verify_email_lockout_amended lockedSeller
      { code := some "123456", expiresAt := some 600000, attempts := 5 } "999999" "654321" 2
      (by decide) (by decide) (by decide)).1 (by decide)

/-- Claim C3 counterexample: a code generated at time 0 with a 10-minute
expiry has expiresAt 600000, and checking the matching code exactly at
time 600000 validates instead of failing with Expired, because the source
compares the clock to expiresAt with a strict greater-than. -/
theorem validate_otp_boundary_counterexample :
    validateOTP (some (generateOTPWithExpiry "123456" 0 10)) "123456" 600000 = .valid ∧
    validateOTP (some (generateOTPWithExpiry "123456" 0 10)) "123456" 600000 ≠ .expired := by
  decide

/-- Claim C3 (amended): a code generated at time start with expiry m
minutes validates, given the matching code, at every check time up to and
including expiresAt = start plus m minutes, and fails with Expired at
every check time strictly after expiresAt. -/
theorem validate_otp_window_amended (code : String) (start m t : Int) :
    (t ≤ start + m * 60 * 1000 →
      validateOTP (some (generateOTPWithExpiry code start m)) code t = .valid) ∧
    (start + m * 60 * 1000 < t →
      validateOTP (some (generateOTPWithExpiry code start m)) code t = .expired) := by
  constructor
  · intro h
    simp [validateOTP, generateOTPWithExpiry]
    omega
  · intro h
    simp [validateOTP, generateOTPWithExpiry]
    omega

theorem validate_otp_window_amended_witness :
    validateOTP (some (generateOTPWithExpiry "123456" 0 10)) "123456" 1000 = .valid :=
  (validate_otp_window_amended "123456" 0 10 1000).1 (by decide)

/-- Claim C5 counterexample: with a provider that fails transiently on
the first two attempts and succeeds on the third, the OTP email path
fails on the first attempt -- sendOTPEmail calls the provider exactly
once, with no retry wrapper -- while the shared approval/rejection path
retries and succeeds; so the claim does not hold for every send
operation. -/
theorem otp_email_retry_counterexample :
    (sendOTPEmail true transientTwiceProvider).1 = .error cErr ∧
    (sendOTPEmail true transientTwiceProvider).2 = [.error cErr] ∧
    (sendEmailViaGmailAPI true transientTwiceProvider).1 = some (.ok ()) :=
  ⟨rfl, rfl, rfl⟩

/-- Claim C5 (amended): for the approval and rejection email paths, which
deliver through sendEmailViaGmailAPI and its retryWithBackoff wrapper, a
provider failing transiently on the first two attempts and succeeding on
the third yields a successful send with exactly one successful delivery
in exactly three provider calls; a failure not classified as transient is
surfaced after a single call with no retry; the OTP email path, by
contrast, performs exactly one provider call with no retry at all. -/
theorem notification_retry_amended (provider : Nat → Except JsError Unit) (e1 e2 e : JsError) :
    (provider 1 = .error e1 → isNetworkError (some e1) = true →
     provider 2 = .error e2 → isNetworkError (some e2) = true →
     provider 3 = .ok () →
     sendApprovalEmail true provider = (some (.ok ()), [.error e1, .error e2, .ok ()]) ∧
     sendRejectionEmail true provider = (some (.ok ()), [.error e1, .error e2, .ok ()]) ∧
     okCount (sendEmailViaGmailAPI true provider).2 = 1) ∧
    (provider 1 = .error e → isNetworkError (some e) = false →
     sendEmailViaGmailAPI true provider = (some (.error e), [.error e])) ∧
    sendOTPEmail true provider = (provider 1, [provider 1]) := by
  refine ⟨?_, ?_, rfl⟩
  · intro h1 n1 h2 n2 h3
    have key : sendEmailViaGmailAPI true provider =
        (some (.ok ()), [.error e1, .error e2, .ok ()]) := by
      simp [sendEmailViaGmailAPI, retryWithBackoff, retryGo, h1, h2, h3, n1, n2]
    refine ⟨key, key, ?_⟩
    rw [key]
    rfl
  · intro h1 n1
    simp [sendEmailViaGmailAPI, retryWithBackoff, retryGo, h1, n1]

theorem notification_retry_amended_witness :
    sendApprovalEmail true transientTwiceProvider =
      (some (.ok ()), [.error cErr, .error cErr, .ok ()]) ∧
    sendRejectionEmail true transientTwiceProvider =
      (some (.ok ()), [.error cErr, .error cErr, .ok ()]) ∧
    okCount (sendEmailViaGmailAPI true transientTwiceProvider).2 = 1 :=
  (notification_retry_amended transientTwiceProvider cErr cErr cErr).1
    rfl (by decide) rfl (by decide) rfl

/-- A seller with nothing earned: its available balance is 0. -/
def brokeSeller : Seller := { sampleSeller with totalEarnings := 0 }

/-- Claim C8 counterexample: brokeSeller's available balance is 0, and a
withdrawal request for exactly that amount is rejected by the up-front
amount validation instead of succeeding with remaining balance 0. -/
theorem withdrawal_exact_balance_counterexample :
    availableBalance brokeSeller = 0 ∧
    requestWithdrawal brokeSeller (some (availableBalance brokeSeller)) 7 =
      (brokeSeller, .validationError) := by decide

/-- Claim C8 (amended): for every seller whose available balance is
strictly positive, a withdrawal request for exactly the available balance
succeeds, appends one pending withdrawal carrying a snapshot of the
current bank details, and reports remaining balance 0; when the available
balance is 0 the request is instead rejected by the amount validation. -/
theorem withdrawal_exact_balance_amended (s : Seller) (now : Int)
    (h : 0 < availableBalance s) :
    requestWithdrawal s (some (availableBalance s)) now =
      ({ s with withdrawals := s.withdrawals ++ [pendingWithdrawal s (availableBalance s) now],
                updatedAt := now },
       .created (pendingWithdrawal s (availableBalance s) now) 0) := by
  have ha : ¬ availableBalance s ≤ 0 := by omega
  have hb : ¬ availableBalance s > availableBalance s := by omega
  simp [requestWithdrawal, ha, hb]

theorem withdrawal_exact_balance_amended_witness :
    requestWithdrawal sampleSeller (some (availableBalance sampleSeller)) 7 =
      ({ sampleSeller with
         withdrawals := sampleSeller.withdrawals ++
           [pendingWithdrawal sampleSeller (availableBalance sampleSeller) 7],
         updatedAt := 7 },
       .created (pendingWithdrawal sampleSeller (availableBalance sampleSeller) 7) 0) :=
  withdrawal_exact_balance_amended sampleSeller 7 (by decide)
